import Mathlib

/-!
Shallow embedding of the weather-risk analysis logic of the Bluesoft
"Will It Rain On My Parade?" frontend.

Numbers are modelled as rationals (`ℚ`); JavaScript `Math.round` is
`jsRound` (round half toward positive infinity); ISO date strings produced
by `Date.toISOString().split('T')[0]` are modelled by the UTC day number of
the underlying epoch-millisecond timestamp (the day number determines the
date string uniquely, and distinct day numbers give distinct strings).
`Math.random()` draws are passed as explicit rational parameters in `[0,1)`.
Backend `fetch` calls are modelled as an `Except` value supplied by the
environment: `.error` covers a missing backend URL, a network failure and a
non-OK HTTP status, all of which land in the same `catch` block in the
source.
-/

set_option autoImplicit false

namespace Bluesoft

/-- JavaScript `Math.round`: round half toward positive infinity. -/
def jsRound (q : ℚ) : ℤ := ⌊q + 1/2⌋

/-- UTC day number of a JS epoch-milliseconds timestamp, as used by
`toISOString().split('T')[0]`: the date string is determined by
`floor(t / 86400000)`. `Int.ediv` is floor division for the positive
divisor. -/
def dayNumber (tms : ℤ) : ℤ := tms / 86400000

/-- JavaScript `a || b` on numbers: `0` is falsy. -/
def jsNumOr (a b : ℚ) : ℚ := if a = 0 then b else a

/-- Whether the character list `pat` occurs as a contiguous run at the head
of `s` (helper for modelling JS `String.prototype.includes`). -/
def listStartsWith : List Char → List Char → Bool
  | _, [] => true
  | [], _ :: _ => false
  | a :: as, b :: bs => a == b && listStartsWith as bs

/-- Whether the character list `pat` occurs contiguously anywhere in `s`. -/
def listHasRun : List Char → List Char → Bool
  | [], pat => pat.isEmpty
  | s@(_ :: rest), pat => listStartsWith s pat || listHasRun rest pat

/-- JavaScript `s.includes(pat)`. -/
def strContains (s pat : String) : Bool := listHasRun s.toList pat.toList

/-- Threshold settings of `WeatherThresholds` (Earth3DGlobe.tsx / Map2D.tsx). -/
structure WeatherThresholds where
  hotTemp : ℚ
  coldTemp : ℚ
  precipitation : ℚ
  windSpeed : ℚ
  deriving Repr, DecidableEq

/-- One entry of a probabilities list as displayed by the globe / map / panel
(`WeatherProbability` in Earth3DGlobe.tsx and WeatherAnalysisPanel.tsx; the
panel's extra numeric fields are not needed by any claim and are omitted
from this shared shape). -/
structure WeatherProbability where
  condition : String
  probability : ℚ
  threshold : String
  trend : String
  confidence : ℚ
  deriving Repr, DecidableEq

namespace Earth3DGlobe

/-- Earth3DGlobe.tsx `calculateWeatherProbabilitiesLocal`: the fallback local
calculation. `month` is JS `date.getMonth()` (0-based); the source takes
`Math.abs(location.lat)` and never reads `location.lng` or the thresholds
except to format the threshold labels. -/
def calculateWeatherProbabilitiesLocal (location_lat location_lng : ℚ) (month : ℤ)
    (thresholds : WeatherThresholds) : List WeatherProbability :=
  let _ := location_lng
  let lat := |location_lat|
  [ { condition := "Very Hot"
    , probability := min 90 (max 5 ((30 - lat) * 2 + (if 5 ≤ month ∧ month ≤ 8 then 30 else 0)))
    , threshold := ">" ++ toString thresholds.hotTemp ++ "°C"
    , trend := if lat < 30 then "increasing" else "stable"
    , confidence := 85/100 }
  , { condition := "Very Cold"
    , probability := min 90 (max 5 (lat * (3/2) + (if 11 ≤ month ∨ month ≤ 2 then 40 else 0)))
    , threshold := "<" ++ toString thresholds.coldTemp ++ "°C"
    , trend := if 40 < lat then "increasing" else "stable"
    , confidence := 78/100 }
  , { condition := "Heavy Rain"
    , probability := min 85 (max 10 (25 + (if 6 ≤ month ∧ month ≤ 9 then 35 else 0)
        + (if lat < 10 then 20 else 0)))
    , threshold := ">" ++ toString thresholds.precipitation ++ "mm"
    , trend := "increasing"
    , confidence := 72/100 }
  , { condition := "Strong Wind"
    , probability := min 75 (max 8 (15 + (if 40 < lat then 25 else 0)
        + (if 10 ≤ month ∨ month ≤ 3 then 20 else 0)))
    , threshold := ">" ++ toString thresholds.windSpeed ++ "m/s"
    , trend := "stable"
    , confidence := 65/100 } ]

/-- Fixed weight table of Earth3DGlobe.tsx `calculateComfortIndex`; a
condition outside the table gets `|| 0.1`. -/
def comfortWeight (condition : String) : ℚ :=
  if condition = "Very Hot" then 3/10
  else if condition = "Very Cold" then 3/10
  else if condition = "Heavy Rain" then 25/100
  else if condition = "Strong Wind" then 15/100
  else 1/10

/-- Earth3DGlobe.tsx `calculateComfortIndex`: weighted comfort index
(100 = perfect, 0 = terrible). -/
def calculateComfortIndex (probabilities : List WeatherProbability) : ℤ :=
  let discomfort :=
    (probabilities.map (fun prob => prob.probability / 100 * comfortWeight prob.condition)).sum
  jsRound (max 0 (min 100 ((1 - discomfort) * 100)))

/-- Payload of a successful `POST /analyze` response as consumed by
Earth3DGlobe.tsx `analyzeWeatherRisk`. -/
structure BackendData where
  probabilities : List WeatherProbability
  comfort_index : ℚ
  alternative_dates : List (ℤ × ℤ × ℤ × String)
  datasets_used : List String
  deriving Repr, DecidableEq

/-- Result shape returned by Earth3DGlobe.tsx `analyzeWeatherRisk` to its
caller. -/
structure AnalysisOutcome where
  probabilities : List WeatherProbability
  comfortIndex : ℚ
  alternatives : List (ℤ × ℤ × ℤ × String)
  datasets_used : List String
  note : Option String
  deriving Repr, DecidableEq

/-- Earth3DGlobe.tsx `analyzeWeatherRisk`: on any thrown error (no backend
configured, network failure, non-OK status) the `catch` block returns the
local simulation with `comfortIndex` 65, no alternatives and
`datasets_used = ['Fallback simulation']`. -/
def analyzeWeatherRisk (location_lat location_lng : ℚ) (month : ℤ)
    (thresholds : WeatherThresholds) (backend : Except String BackendData) :
    AnalysisOutcome :=
  match backend with
  | .ok data =>
      { probabilities := data.probabilities
      , comfortIndex := data.comfort_index
      , alternatives := data.alternative_dates
      , datasets_used := data.datasets_used
      , note := none }
  | .error _ =>
      { probabilities := calculateWeatherProbabilitiesLocal location_lat location_lng month thresholds
      , comfortIndex := 65
      , alternatives := []
      , datasets_used := ["Fallback simulation"]
      , note := some "Backend unavailable, using local simulation" }

end Earth3DGlobe

namespace DataSourceIndicator

/-- One entry of `probabilities` in `WeatherAnalysisResponse`
(DataSourceIndicator.tsx). -/
structure ProbabilityEntry where
  condition : String
  probability : ℤ
  threshold : String
  trend : String
  confidence : ℚ
  historical_mean : ℚ
  trend_slope : ℚ
  p_value : ℚ
  deriving Repr, DecidableEq

/-- One entry of `alternative_dates`; `date` is the UTC day number standing
for the ISO date string. -/
structure AlternativeDateEntry where
  date : ℤ
  comfort_index : ℤ
  offset_days : ℤ
  recommendation : String
  deriving Repr, DecidableEq

/-- The `metadata` object of `WeatherAnalysisResponse`. -/
structure AnalysisMetadata where
  datasets_used : List String
  years_analyzed : String
  analysis_date : String
  confidence_level : String
  data_window : String
  deriving Repr, DecidableEq

/-- The `WeatherAnalysisResponse` shape of DataSourceIndicator.tsx;
`event_date` is the UTC day number standing for the ISO date string. -/
structure WeatherAnalysisResponse where
  latitude : ℚ
  longitude : ℚ
  event_date : ℤ
  comfort_index : ℤ
  probabilities : List ProbabilityEntry
  alternative_dates : List AlternativeDateEntry
  metadata : AnalysisMetadata
  deriving Repr, DecidableEq

/-- DataSourceIndicator.tsx `handleAnalyze` catch block: the simulated
analysis built when the backend is unavailable. `tms` is
`selectedDate.getTime()`; `today` is the ISO date of the wall clock;
`r0 … r5` are the six `Math.random()` draws in source order
(comfort_index, three probabilities, two alternative comfort indices). -/
def fallbackAnalysis (lat lng : ℚ) (tms : ℤ) (today : String)
    (r0 r1 r2 r3 r4 r5 : ℚ) : WeatherAnalysisResponse :=
  { latitude := lat
  , longitude := lng
  , event_date := dayNumber tms
  , comfort_index := jsRound (60 + r0 * 30)
  , probabilities :=
      [ { condition := "Temperature", probability := jsRound (20 + r1 * 30)
        , threshold := ">32¬∞C", trend := "stable", confidence := 7/10
        , historical_mean := 28, trend_slope := 1/10, p_value := 5/100 }
      , { condition := "Precipitation", probability := jsRound (10 + r2 * 40)
        , threshold := ">5mm", trend := "stable", confidence := 6/10
        , historical_mean := 3, trend_slope := 2/10, p_value := 3/100 }
      , { condition := "Wind Speed", probability := jsRound (5 + r3 * 25)
        , threshold := ">15m/s", trend := "stable", confidence := 8/10
        , historical_mean := 8, trend_slope := -(1/10), p_value := 8/100 } ]
  , alternative_dates :=
      [ { date := dayNumber (tms + 24 * 60 * 60 * 1000)
        , comfort_index := jsRound (70 + r4 * 20)
        , offset_days := 1, recommendation := "Better" }
      , { date := dayNumber (tms + 2 * 24 * 60 * 60 * 1000)
        , comfort_index := jsRound (65 + r5 * 25)
        , offset_days := 2, recommendation := "Monitor" } ]
  , metadata :=
      { datasets_used := ["Fallback simulation"]
      , years_analyzed := "2020-2024"
      , analysis_date := today
      , confidence_level := "Medium"
      , data_window := "Fallback mode - Backend unavailable" } }

/-- DataSourceIndicator.tsx `handleAnalyze`: the analysis data shown to the
user. A successful backend response is used as-is; any thrown error
(network, HTTP, no backend) is caught and replaced by `fallbackAnalysis` —
never propagated. -/
def handleAnalyze (lat lng : ℚ) (tms : ℤ) (today : String)
    (r0 r1 r2 r3 r4 r5 : ℚ)
    (backend : Except String WeatherAnalysisResponse) : WeatherAnalysisResponse :=
  match backend with
  | .ok data => data
  | .error _ => fallbackAnalysis lat lng tms today r0 r1 r2 r3 r4 r5

end DataSourceIndicator

namespace Map2D

/-- Body of the `POST /analyze` request built by Map2D.tsx
`analyzeWeatherRisk`; `polygon = none` models the field being `undefined`. -/
structure AnalyzeRequestBody where
  latitude : ℚ
  longitude : ℚ
  event_date : ℤ
  thresholds : WeatherThresholds
  area_radius_km : ℚ
  polygon : Option (List (ℚ × ℚ))
  deriving Repr, DecidableEq

/-- Map2D.tsx `analyzeWeatherRisk` request construction: the `polygon`
field is sent only when `polygon && polygon.length >= 3`, otherwise it is
`undefined`; `area_radius_km` is `radiusKm || areaRadiusKm || 0`. The
function performs no validation and never rejects a request. -/
def buildAnalyzeRequest (lat lng : ℚ) (tms : ℤ) (thresholds : WeatherThresholds)
    (radiusKm : Option ℚ) (areaRadiusKm : ℚ)
    (polygon : Option (List (ℚ × ℚ))) : AnalyzeRequestBody :=
  { latitude := lat
  , longitude := lng
  , event_date := dayNumber tms
  , thresholds := thresholds
  , area_radius_km := jsNumOr (jsNumOr (radiusKm.getD 0) areaRadiusKm) 0
  , polygon :=
      match polygon with
      | some ps => if 3 ≤ ps.length then some ps else none
      | none => none }

/-- Map2D.tsx `analyzeWeatherRisk` result handling: on success the
response's `probabilities || []` is shown; on any thrown error the catch
block shows three simulated entries built from `Math.random()` draws
`s1 s2 s3`. -/
def analyzeWeatherRisk (s1 s2 s3 : ℚ)
    (backend : Except String (Option (List WeatherProbability))) :
    List WeatherProbability :=
  match backend with
  | .ok data => data.getD []
  | .error _ =>
      [ { condition := "Temperature", probability := s1 * 30 + 20
        , threshold := ">32¬∞C", trend := "stable", confidence := 7/10 }
      , { condition := "Precipitation", probability := s2 * 40 + 10
        , threshold := ">5mm", trend := "stable", confidence := 6/10 }
      , { condition := "Wind Speed", probability := s3 * 25 + 5
        , threshold := ">15m/s", trend := "stable", confidence := 8/10 } ]

end Map2D

namespace WeatherAnalysisPanel

/-- WeatherAnalysisPanel.tsx `calculateComfortIndex`: comfort is
`100 − (totalRisk / maxRisk) · 100` clamped to `[0,100]` and rounded, where
`totalRisk` sums `probability / 100` and `maxRisk` is the list length;
an absent (`none`) or empty list gives `0`. -/
def calculateComfortIndex (probabilities : Option (List WeatherProbability)) : ℤ :=
  match probabilities with
  | none => 0
  | some ps =>
      if ps.length = 0 then 0
      else
        let totalRisk := (ps.map (fun prob => prob.probability / 100)).sum
        let maxRisk : ℚ := ps.length
        jsRound (max 0 (min 100 (100 - totalRisk / maxRisk * 100)))

/-- Props of `WeatherAnalysisPanel` that feed the comfort display. -/
structure PanelProps where
  weatherProbabilities : List WeatherProbability
  comfortIndex : ℤ
  isVisible : Bool
  deriving Repr, DecidableEq

/-- The comfort value the panel renders: `none` when the panel returns
`null` (not visible or empty list); otherwise the locally recomputed
`calculatedComfortIndex` — the `comfortIndex` prop is never rendered. -/
def panelDisplayedComfort (props : PanelProps) : Option ℤ :=
  if !props.isVisible || props.weatherProbabilities.isEmpty then none
  else some (calculateComfortIndex (some props.weatherProbabilities))

end WeatherAnalysisPanel

namespace WeatherAnalysis

/-- WeatherAnalysis.tsx `handleExportCSV` per-row dataset attribution:
`'GPM IMERG'` when the condition name includes `'Rain'` or
`'Precipitation'`, else `'MERRA-2'` — computed from the condition name
alone, never from the result's `metadata.datasets_used`. -/
def csvRowDataset (condition : String) : String :=
  if strContains condition "Rain" || strContains condition "Precipitation"
  then "GPM IMERG" else "MERRA-2"

/-- Default `metadata.datasets_used` hard-coded by `handleExportCSV` when
`analysisData` is absent. -/
def defaultExportDatasets : List String := ["MERRA-2", "GPM IMERG"]

/-- Condition names of the default probabilities list hard-coded by
`handleExportCSV` when `analysisData` is absent. -/
def defaultExportConditions : List String :=
  ["Very Hot", "Heavy Rain", "Strong Wind", "High Humidity"]

/-- The `datasets_used` list written into the CSV metadata:
`analysisData?.metadata || { datasets_used: ['MERRA-2', 'GPM IMERG'], … }`. -/
def exportMetadataDatasets
    (analysisData : Option DataSourceIndicator.WeatherAnalysisResponse) : List String :=
  match analysisData with
  | some a => a.metadata.datasets_used
  | none => defaultExportDatasets

/-- The per-row `Dataset` column of the exported CSV, one entry per
probability row. -/
def exportRowDatasets
    (analysisData : Option DataSourceIndicator.WeatherAnalysisResponse) : List String :=
  let conditions : List String :=
    match analysisData with
    | some a => a.probabilities.map (fun p => p.condition)
    | none => defaultExportConditions
  conditions.map csvRowDataset

end WeatherAnalysis

/-- Probability of the `i`-th entry of a probabilities list (0 when the list
is shorter). -/
def nthProbability (ps : List WeatherProbability) (i : ℕ) : ℚ :=
  (ps.getD i
    { condition := "", probability := 0, threshold := "", trend := "", confidence := 0 }).probability

/-- The components of a `WeatherAnalysisResponse` that are built without any
`Math.random()` draw in `fallbackAnalysis`: location, event date, metadata,
and every probability / alternative-date field except the randomly drawn
`probability` and `comfort_index` values. -/
def DataSourceIndicator.nonRandomPart (a : DataSourceIndicator.WeatherAnalysisResponse) :
    ℚ × ℚ × ℤ × DataSourceIndicator.AnalysisMetadata
      × List (String × String × String × ℚ × ℚ × ℚ × ℚ) × List (ℤ × ℤ × String) :=
  ( a.latitude, a.longitude, a.event_date, a.metadata
  , a.probabilities.map (fun p =>
      (p.condition, p.threshold, p.trend, p.confidence, p.historical_mean, p.trend_slope, p.p_value))
  , a.alternative_dates.map (fun e => (e.date, e.offset_days, e.recommendation)) )

/-- Classification rule asserted by the specification for alternative-date
recommendations (stated from the spec's words, to be compared with the
source): with some fixed margin, an entry is `Better` iff its comfort index
exceeds the baseline by more than the margin, `Risky` iff it is below the
baseline by more than the margin, and `Monitor` otherwise. -/
def DataSourceIndicator.classifiedAgainstBaseline (margin : ℤ)
    (a : DataSourceIndicator.WeatherAnalysisResponse) : Prop :=
  ∀ e ∈ a.alternative_dates,
    (e.recommendation = "Better" ↔ a.comfort_index + margin < e.comfort_index) ∧
    (e.recommendation = "Risky" ↔ e.comfort_index + margin < a.comfort_index) ∧
    (e.recommendation = "Monitor" ↔
      (¬ (a.comfort_index + margin < e.comfort_index) ∧
        ¬ (e.comfort_index + margin < a.comfort_index)))

end Bluesoft

open Bluesoft

/-! Helper lemmas about `jsRound` and list sums. -/

theorem jsRound_mono {q r : ℚ} (h : q ≤ r) : jsRound q ≤ jsRound r :=
  Int.floor_le_floor (by linarith)

theorem jsRound_intCast (n : ℤ) : jsRound (n : ℚ) = n := by
  unfold jsRound
  rw [add_comm, Int.floor_add_int]
  norm_num

theorem le_jsRound {n : ℤ} {q : ℚ} (h : (n : ℚ) ≤ q) : n ≤ jsRound q :=
  (jsRound_intCast n).symm.trans_le (jsRound_mono h)

theorem jsRound_le {n : ℤ} {q : ℚ} (h : q ≤ (n : ℚ)) : jsRound q ≤ n :=
  (jsRound_mono h).trans_eq (jsRound_intCast n)

theorem jsRound_clamp (q : ℚ) :
    jsRound (max 0 (min 100 q)) = max 0 (min 100 (jsRound q)) := by
  rcases le_total q 0 with h | h
  · rw [min_eq_right (h.trans (by norm_num)), max_eq_left h]
    have h0 : jsRound q ≤ 0 := jsRound_le (by exact_mod_cast h)
    rw [min_eq_right (h0.trans (by norm_num)), max_eq_left h0]
    simpa using jsRound_intCast 0
  · rcases le_total 100 q with h2 | h2
    · rw [min_eq_left h2, max_eq_right (by norm_num : (0:ℚ) ≤ 100)]
      have h100 : (100 : ℤ) ≤ jsRound q := le_jsRound (by exact_mod_cast h2)
      rw [min_eq_left h100, max_eq_right (by norm_num : (0:ℤ) ≤ 100)]
      simpa using jsRound_intCast 100
    · rw [min_eq_right h2, max_eq_right h]
      have hlo : (0 : ℤ) ≤ jsRound q := le_jsRound (by exact_mod_cast h)
      have hhi : jsRound q ≤ 100 := jsRound_le (by exact_mod_cast h2)
      rw [min_eq_right hhi, max_eq_right hlo]

theorem jsRound_clamp_bounds (y : ℚ) :
    0 ≤ jsRound (max 0 (min 100 y)) ∧ jsRound (max 0 (min 100 y)) ≤ 100 := by
  constructor
  · exact le_jsRound (by exact_mod_cast le_max_left 0 (min 100 y))
  · exact jsRound_le (by exact_mod_cast max_le (by norm_num) (min_le_left 100 y))

theorem jsRound_affine_bounds (base coeff r : ℚ) (hb : 0 ≤ base) (hc : 0 ≤ coeff)
    (hsum : base + coeff ≤ 100) (h0 : 0 ≤ r) (h1 : r < 1) :
    0 ≤ jsRound (base + r * coeff) ∧ jsRound (base + r * coeff) ≤ 100 := by
  constructor
  · refine le_jsRound ?_
    have : 0 ≤ r * coeff := mul_nonneg h0 hc
    push_cast
    linarith
  · refine jsRound_le ?_
    have : r * coeff ≤ coeff := mul_le_of_le_one_left hc h1.le
    push_cast
    linarith

theorem clamped_prob_bounds {a b : ℚ} (x : ℚ) (ha0 : 0 ≤ a) (ha : a ≤ 100) (hb : 0 ≤ b) :
    0 ≤ min a (max b x) ∧ min a (max b x) ≤ 100 :=
  ⟨le_min ha0 (hb.trans (le_max_left _ _)), (min_le_left _ _).trans ha⟩

theorem sum_map_div {α : Type} (l : List α) (f : α → ℚ) (c : ℚ) :
    (l.map (fun x => f x / c)).sum = (l.map f).sum / c := by
  induction l with
  | nil => simp
  | cons a t ih => simp [ih, add_div]

theorem dayNumber_add_days (tms k : ℤ) :
    dayNumber (tms + k * 86400000) = dayNumber tms + k := by
  unfold dayNumber
  exact Int.add_mul_ediv_right tms k (by norm_num)

theorem comfortWeight_hot : Earth3DGlobe.comfortWeight "Very Hot" = 3/10 := rfl

theorem comfortWeight_cold : Earth3DGlobe.comfortWeight "Very Cold" = 3/10 := rfl

theorem comfortWeight_rain : Earth3DGlobe.comfortWeight "Heavy Rain" = 25/100 := rfl

theorem comfortWeight_wind : Earth3DGlobe.comfortWeight "Strong Wind" = 15/100 := rfl

/-- C3 (amended): the comfort score is `round(100 · (1 − Σ wᵢ·pᵢ/100))` clamped to
`[0,100]`, using the fixed weight table Very Hot 0.3, Very Cold 0.3,
Heavy Rain 0.25, Strong Wind 0.15 and 0.1 for any other condition; hot and
cold carry the highest weights, precipitation next, wind lowest, and the
table's weights sum to 1.0 over the four canonical conditions — but the
weights are not renormalized when some of those conditions are absent from
the list. -/
theorem C3_comfort_formula_amended (ps : List WeatherProbability) :
    (Earth3DGlobe.calculateComfortIndex ps
        = max 0 (min 100 (jsRound (100 * (1 -
            (ps.map (fun p => Earth3DGlobe.comfortWeight p.condition * p.probability / 100)).sum)))))
    ∧ Earth3DGlobe.comfortWeight "Very Hot" = 3/10
    ∧ Earth3DGlobe.comfortWeight "Very Cold" = 3/10
    ∧ Earth3DGlobe.comfortWeight "Heavy Rain" = 25/100
    ∧ Earth3DGlobe.comfortWeight "Strong Wind" = 15/100
    ∧ (∀ c : String, c ≠ "Very Hot" → c ≠ "Very Cold" → c ≠ "Heavy Rain" →
        c ≠ "Strong Wind" → Earth3DGlobe.comfortWeight c = 1/10)
    ∧ ((15:ℚ)/100 < 25/100 ∧ (25:ℚ)/100 < 3/10)
    ∧ ((["Very Hot", "Very Cold", "Heavy Rain", "Strong Wind"].map
        Earth3DGlobe.comfortWeight).sum = 1) := by
  refine ⟨?_, comfortWeight_hot, comfortWeight_cold, comfortWeight_rain, comfortWeight_wind,
    ?_, by norm_num, ?_⟩
  · have hmap : ps.map
        (fun prob => prob.probability / 100 * Earth3DGlobe.comfortWeight prob.condition)
        = ps.map (fun p => Earth3DGlobe.comfortWeight p.condition * p.probability / 100) :=
      List.map_congr_left (fun p _ => by ring)
    simp only [Earth3DGlobe.calculateComfortIndex]
    rw [hmap, mul_comm (1 - (ps.map
      (fun p => Earth3DGlobe.comfortWeight p.condition * p.probability / 100)).sum) 100]
    exact jsRound_clamp _
  · intro c h1 h2 h3 h4
    simp [Earth3DGlobe.comfortWeight, h1, h2, h3, h4]
  · simp only [List.map_cons, List.map_nil, List.sum_cons, List.sum_nil,
      comfortWeight_hot, comfortWeight_cold, comfortWeight_rain, comfortWeight_wind]
    norm_num

/-- C3 witness: the amended statement at the singleton list containing only a
"Very Hot" entry with probability 100: the code gives comfort 70 — weight
0.3 applied without renormalization — and an unlisted condition gets
weight 0.1. -/
theorem C3_comfort_formula_amended_witness :
    Earth3DGlobe.calculateComfortIndex
        [{ condition := "Very Hot", probability := 100, threshold := ">32°C",
           trend := "increasing", confidence := 85/100 }] = 70
    ∧ Earth3DGlobe.comfortWeight "Humidity" = 1/10 := by
  constructor
  · rw [(C3_comfort_formula_amended
      [{ condition := "Very Hot", probability := 100, threshold := ">32°C",
         trend := "increasing", confidence := 85/100 }]).1]
    simp only [List.map_cons, List.map_nil, List.sum_cons, List.sum_nil, comfortWeight_hot]
    norm_num [jsRound]
  · exact (C3_comfort_formula_amended []).2.2.2.2.2.1 "Humidity"
      (by decide) (by decide) (by decide) (by decide)

/-- C3 counterexample: with only the "Very Hot" statistic present, the
weight actually applied to it is 0.3, so the weights in use do not sum to
1.0 over the variables present (a renormalized scorer would return comfort
0 for probability 100; the code returns 70). -/
theorem C3_weights_not_renormalized_cx :
    Earth3DGlobe.calculateComfortIndex
        [{ condition := "Very Hot", probability := 100, threshold := ">32°C",
           trend := "increasing", confidence := 85/100 }] = 70
    ∧ ([({ condition := "Very Hot", probability := 100, threshold := ">32°C",
           trend := "increasing", confidence := 85/100 } : WeatherProbability)].map
        (fun p => Earth3DGlobe.comfortWeight p.condition)).sum = 3/10
    ∧ ((3:ℚ)/10 ≠ 1) := by
  refine ⟨?_, ?_, by norm_num⟩
  · norm_num [Earth3DGlobe.calculateComfortIndex, Earth3DGlobe.comfortWeight, jsRound]
  · simp only [List.map_cons, List.map_nil, List.sum_cons, List.sum_nil, comfortWeight_hot]
    norm_num

/-- C10: the comfort value the analysis panel displays is computed locally
as `round(clamp(100 − mean(probabilities)))` with all conditions weighted
equally, is 0 for a missing or empty list, and is independent of the
`comfortIndex` prop passed in from the analysis result. -/
theorem C10_panel_comfort_local_mean :
    (WeatherAnalysisPanel.calculateComfortIndex none = 0)
    ∧ (WeatherAnalysisPanel.calculateComfortIndex (some []) = 0)
    ∧ (∀ ps : List WeatherProbability, ps ≠ [] →
        WeatherAnalysisPanel.calculateComfortIndex (some ps)
          = max 0 (min 100 (jsRound (100 - (ps.map (fun p => p.probability)).sum / ps.length))))
    ∧ (∀ props : WeatherAnalysisPanel.PanelProps, ∀ c : ℤ,
        WeatherAnalysisPanel.panelDisplayedComfort { props with comfortIndex := c }
          = WeatherAnalysisPanel.panelDisplayedComfort props) := by
  refine ⟨rfl, rfl, ?_, ?_⟩
  · intro ps hps
    have hn : (ps.length : ℚ) ≠ 0 := by
      exact_mod_cast fun h => hps (List.length_eq_zero.mp (by exact_mod_cast h))
    simp only [WeatherAnalysisPanel.calculateComfortIndex]
    rw [if_neg (fun h => hps (List.length_eq_zero.mp h))]
    rw [sum_map_div ps (fun p => p.probability) 100]
    have harg : (100:ℚ) - ((ps.map (fun p => p.probability)).sum / 100) / (ps.length : ℚ) * 100
        = 100 - (ps.map (fun p => p.probability)).sum / (ps.length : ℚ) := by
      field_simp
      ring
    rw [harg, jsRound_clamp]
  · intro props c
    rfl

/-- C10 witness: two equally weighted entries with probabilities 30 and 50
display comfort `round(100 − 40) = 60`. -/
theorem C10_panel_comfort_local_mean_witness :
    WeatherAnalysisPanel.calculateComfortIndex (some
      [{ condition := "Heavy Rain", probability := 30, threshold := ">5mm",
         trend := "stable", confidence := 72/100 },
       { condition := "Strong Wind", probability := 50, threshold := ">15m/s",
         trend := "stable", confidence := 65/100 }]) = 60 := by
  have h := C10_panel_comfort_local_mean.2.2.1
    [{ condition := "Heavy Rain", probability := 30, threshold := ">5mm",
       trend := "stable", confidence := 72/100 },
     { condition := "Strong Wind", probability := 50, threshold := ">15m/s",
       trend := "stable", confidence := 65/100 }]
    (by simp)
  rw [h]
  norm_num [jsRound]

/-- C1: evaluation of the export attribution at the failing input. With no
backend data (`analysisData = none`) the CSV metadata claims
`["MERRA-2", "GPM IMERG"]` and every row's `Dataset` column names MERRA-2
or GPM IMERG; even when the analysis data is the fallback result whose
`datasets_used` is `["Fallback simulation"]`, the per-row attribution still
names the real providers — contradicting the claim that synthetic/fallback
data is never attributed to a real provider. -/
theorem C1_export_attribution_bug :
    WeatherAnalysis.exportMetadataDatasets none = ["MERRA-2", "GPM IMERG"]
    ∧ WeatherAnalysis.exportRowDatasets none = ["MERRA-2", "GPM IMERG", "MERRA-2", "MERRA-2"]
    ∧ (DataSourceIndicator.fallbackAnalysis 0 0 0 "2025-10-12" 0 0 0 0 0 0).metadata.datasets_used
        = ["Fallback simulation"]
    ∧ WeatherAnalysis.exportRowDatasets
        (some (DataSourceIndicator.fallbackAnalysis 0 0 0 "2025-10-12" 0 0 0 0 0 0))
        = ["MERRA-2", "GPM IMERG", "MERRA-2"] :=
  ⟨rfl, rfl, rfl, rfl⟩

/-- C2 counterexample: two fallback runs with identical request inputs
(location (0,0), same timestamp, same wall-clock date) but different
`Math.random()` draws — both draws valid, i.e. in `[0,1)` — produce
different `comfort_index` values (60 vs 75), so the two results are not
bit-identical. -/
theorem C2_fallback_not_deterministic_cx :
    ((0:ℚ) ≤ 0 ∧ (0:ℚ) < 1 ∧ (0:ℚ) ≤ 1/2 ∧ (1/2:ℚ) < 1)
    ∧ (DataSourceIndicator.fallbackAnalysis 0 0 0 "2025-10-12" 0 0 0 0 0 0).comfort_index = 60
    ∧ (DataSourceIndicator.fallbackAnalysis 0 0 0 "2025-10-12" (1/2) 0 0 0 0 0).comfort_index = 75
    ∧ DataSourceIndicator.fallbackAnalysis 0 0 0 "2025-10-12" 0 0 0 0 0 0
        ≠ DataSourceIndicator.fallbackAnalysis 0 0 0 "2025-10-12" (1/2) 0 0 0 0 0 := by
  have h60 : (DataSourceIndicator.fallbackAnalysis 0 0 0 "2025-10-12" 0 0 0 0 0 0).comfort_index
      = 60 := by
    norm_num [DataSourceIndicator.fallbackAnalysis, jsRound]
  have h75 : (DataSourceIndicator.fallbackAnalysis 0 0 0 "2025-10-12" (1/2) 0 0 0 0 0).comfort_index
      = 75 := by
    norm_num [DataSourceIndicator.fallbackAnalysis, jsRound]
  refine ⟨by norm_num, h60, h75, fun h => ?_⟩
  have hc := congrArg DataSourceIndicator.WeatherAnalysisResponse.comfort_index h
  rw [h60, h75] at hc
  exact absurd hc (by norm_num)

/-- C2 (amended): with no real source available the two runs need not be
bit-identical, because `probabilities` and the `comfort_index` values are
drawn from `Math.random()`; only the non-random components — location,
event date, metadata, condition/threshold/trend/confidence fields and the
alternative dates' date/offset/recommendation — are identical across any
two runs with identical inputs, whatever the draws. -/
theorem C2_fallback_nonrandom_fields_deterministic
    (lat lng : ℚ) (tms : ℤ) (today : String) (r0 r1 r2 r3 r4 r5 s0 s1 s2 s3 s4 s5 : ℚ) :
    DataSourceIndicator.nonRandomPart
        (DataSourceIndicator.fallbackAnalysis lat lng tms today r0 r1 r2 r3 r4 r5)
      = DataSourceIndicator.nonRandomPart
        (DataSourceIndicator.fallbackAnalysis lat lng tms today s0 s1 s2 s3 s4 s5) := rfl

/-- C4: every probability produced by the Earth3DGlobe local fallback
calculation lies in [0,100]; both comfort-index functions return values in
[0,100] on every input; and the DataSourceIndicator fallback analysis and
the Map2D fallback probabilities stay in [0,100] for every valid
`Math.random()` draw (each draw in `[0,1)`). -/
theorem C4_probabilities_and_comfort_in_range :
    (∀ (location_lat location_lng : ℚ) (month : ℤ) (t : WeatherThresholds),
      ∀ p ∈ Earth3DGlobe.calculateWeatherProbabilitiesLocal location_lat location_lng month t,
        0 ≤ p.probability ∧ p.probability ≤ 100)
    ∧ (∀ ps : List WeatherProbability,
        0 ≤ Earth3DGlobe.calculateComfortIndex ps ∧ Earth3DGlobe.calculateComfortIndex ps ≤ 100)
    ∧ (∀ ops : Option (List WeatherProbability),
        0 ≤ WeatherAnalysisPanel.calculateComfortIndex ops
          ∧ WeatherAnalysisPanel.calculateComfortIndex ops ≤ 100)
    ∧ (∀ (lat lng : ℚ) (tms : ℤ) (today : String) (r0 r1 r2 r3 r4 r5 : ℚ),
        (∀ r ∈ [r0, r1, r2, r3, r4, r5], 0 ≤ r ∧ r < 1) →
        ((0 ≤ (DataSourceIndicator.fallbackAnalysis lat lng tms today r0 r1 r2 r3 r4 r5).comfort_index
          ∧ (DataSourceIndicator.fallbackAnalysis lat lng tms today r0 r1 r2 r3 r4 r5).comfort_index ≤ 100)
          ∧ ∀ p ∈ (DataSourceIndicator.fallbackAnalysis lat lng tms today r0 r1 r2 r3 r4 r5).probabilities,
              0 ≤ p.probability ∧ p.probability ≤ 100))
    ∧ (∀ (s1 s2 s3 : ℚ) (err : String), (∀ s ∈ [s1, s2, s3], 0 ≤ s ∧ s < 1) →
        ∀ p ∈ Map2D.analyzeWeatherRisk s1 s2 s3 (.error err),
          0 ≤ p.probability ∧ p.probability ≤ 100) := by
  refine ⟨?_, ?_, ?_, ?_, ?_⟩
  · intro llat llng month t p hp
    simp only [Earth3DGlobe.calculateWeatherProbabilitiesLocal, List.mem_cons,
      List.not_mem_nil, or_false] at hp
    rcases hp with rfl | rfl | rfl | rfl <;>
      exact clamped_prob_bounds _ (by norm_num) (by norm_num) (by norm_num)
  · intro ps
    simp only [Earth3DGlobe.calculateComfortIndex]
    exact jsRound_clamp_bounds _
  · intro ops
    rcases ops with _ | ps
    · simp [WeatherAnalysisPanel.calculateComfortIndex]
    · simp only [WeatherAnalysisPanel.calculateComfortIndex]
      by_cases h : ps.length = 0
      · rw [if_pos h]; norm_num
      · rw [if_neg h]; exact jsRound_clamp_bounds _
  · intro lat lng tms today r0 r1 r2 r3 r4 r5 hr
    obtain ⟨h0, h0'⟩ := hr r0 (by simp)
    obtain ⟨h1, h1'⟩ := hr r1 (by simp)
    obtain ⟨h2, h2'⟩ := hr r2 (by simp)
    obtain ⟨h3, h3'⟩ := hr r3 (by simp)
    constructor
    · exact jsRound_affine_bounds 60 30 r0 (by norm_num) (by norm_num) (by norm_num) h0 h0'
    · intro p hp
      simp only [DataSourceIndicator.fallbackAnalysis, List.mem_cons,
        List.not_mem_nil, or_false] at hp
      rcases hp with rfl | rfl | rfl
      · exact jsRound_affine_bounds 20 30 r1 (by norm_num) (by norm_num) (by norm_num) h1 h1'
      · exact jsRound_affine_bounds 10 40 r2 (by norm_num) (by norm_num) (by norm_num) h2 h2'
      · exact jsRound_affine_bounds 5 25 r3 (by norm_num) (by norm_num) (by norm_num) h3 h3'
  · intro s1 s2 s3 err hs p hp
    obtain ⟨g1, g1'⟩ := hs s1 (by simp)
    obtain ⟨g2, g2'⟩ := hs s2 (by simp)
    obtain ⟨g3, g3'⟩ := hs s3 (by simp)
    simp only [Map2D.analyzeWeatherRisk, List.mem_cons, List.not_mem_nil, or_false] at hp
    rcases hp with rfl | rfl | rfl
    · have := mul_le_of_le_one_left (by norm_num : (0:ℚ) ≤ 30) g1'.le
      have := mul_nonneg g1 (by norm_num : (0:ℚ) ≤ 30)
      constructor <;> simp only [] <;> linarith
    · have := mul_le_of_le_one_left (by norm_num : (0:ℚ) ≤ 40) g2'.le
      have := mul_nonneg g2 (by norm_num : (0:ℚ) ≤ 40)
      constructor <;> simp only [] <;> linarith
    · have := mul_le_of_le_one_left (by norm_num : (0:ℚ) ≤ 25) g3'.le
      have := mul_nonneg g3 (by norm_num : (0:ℚ) ≤ 25)
      constructor <;> simp only [] <;> linarith

/-- C4 witness: the range bounds instantiated at concrete inputs — the
fallback analysis at location (0,0), timestamp 0, with all six random draws
equal to 1/2. -/
theorem C4_probabilities_and_comfort_in_range_witness :
    0 ≤ (DataSourceIndicator.fallbackAnalysis 0 0 0 "2025-10-12"
          (1/2) (1/2) (1/2) (1/2) (1/2) (1/2)).comfort_index
    ∧ (DataSourceIndicator.fallbackAnalysis 0 0 0 "2025-10-12"
          (1/2) (1/2) (1/2) (1/2) (1/2) (1/2)).comfort_index ≤ 100 := by
  have h := C4_probabilities_and_comfort_in_range.2.2.2.1 0 0 0 "2025-10-12"
    (1/2) (1/2) (1/2) (1/2) (1/2) (1/2)
    (by
      intro r hr
      simp only [List.mem_cons, List.not_mem_nil, or_false] at hr
      rcases hr with rfl | rfl | rfl | rfl | rfl | rfl <;> norm_num)
  exact h.1

/-- C5 counterexample: in the fallback analysis with random draws
`r0 = 99/100` (valid, in `[0,1)`) and all others 0, the baseline
comfort_index is 90 while the entry labeled "Better" has comfort_index 70;
hence no fixed nonnegative margin makes the recommendations a
comparison-to-baseline classification as the claim states. -/
theorem C5_recommendation_ignores_baseline_cx :
    ((0:ℚ) ≤ 99/100 ∧ (99/100:ℚ) < 1)
    ∧ (DataSourceIndicator.fallbackAnalysis 0 0 0 "2025-10-12" (99/100) 0 0 0 0 0).comfort_index = 90
    ∧ ((DataSourceIndicator.fallbackAnalysis 0 0 0 "2025-10-12" (99/100) 0 0 0 0 0).alternative_dates.map
        (fun e => (e.recommendation, e.comfort_index))) = [("Better", 70), ("Monitor", 65)]
    ∧ ¬ ∃ margin : ℤ, 0 ≤ margin ∧
        DataSourceIndicator.classifiedAgainstBaseline margin
          (DataSourceIndicator.fallbackAnalysis 0 0 0 "2025-10-12" (99/100) 0 0 0 0 0) := by
  have h90 : (DataSourceIndicator.fallbackAnalysis 0 0 0 "2025-10-12"
      (99/100) 0 0 0 0 0).comfort_index = 90 := by
    norm_num [DataSourceIndicator.fallbackAnalysis, jsRound]
  have hmap : ((DataSourceIndicator.fallbackAnalysis 0 0 0 "2025-10-12"
      (99/100) 0 0 0 0 0).alternative_dates.map
      (fun e => (e.recommendation, e.comfort_index))) = [("Better", 70), ("Monitor", 65)] := by
    norm_num [DataSourceIndicator.fallbackAnalysis, jsRound]
  refine ⟨by norm_num, h90, hmap, ?_⟩
  rintro ⟨m, hm, hcl⟩
  have h1 := hcl _ (List.mem_cons_self _ _)
  have hb := h1.1.mp rfl
  norm_num [DataSourceIndicator.fallbackAnalysis, jsRound] at hb
  omega

/-- C5 (amended): the recommendations of the fallback alternative dates are
fixed by position — "Better" for the +1-day entry and "Monitor" for the
+2-day entry — independent of the baseline and candidate comfort indices. -/
theorem C5_fixed_recommendations_amended
    (lat lng : ℚ) (tms : ℤ) (today : String) (r0 r1 r2 r3 r4 r5 : ℚ) :
    (DataSourceIndicator.fallbackAnalysis lat lng tms today r0 r1 r2 r3 r4 r5).alternative_dates.map
        (fun e => (e.offset_days, e.recommendation))
      = [(1, "Better"), (2, "Monitor")] := rfl

/-- C6: the fallback analysis places its alternative dates at event_date+1
and event_date+2 — never at the event date itself — and the Earth3DGlobe
fallback produces an empty alternatives list. -/
theorem C6_alternative_dates_exclude_event_date :
    (∀ (lat lng : ℚ) (tms : ℤ) (today : String) (r0 r1 r2 r3 r4 r5 : ℚ),
      ((DataSourceIndicator.fallbackAnalysis lat lng tms today r0 r1 r2 r3 r4 r5).alternative_dates.map
          (fun e => e.date) = [dayNumber tms + 1, dayNumber tms + 2])
      ∧ (DataSourceIndicator.fallbackAnalysis lat lng tms today r0 r1 r2 r3 r4 r5).event_date ∉
          ((DataSourceIndicator.fallbackAnalysis lat lng tms today r0 r1 r2 r3 r4 r5).alternative_dates.map
            (fun e => e.date)))
    ∧ (∀ (location_lat location_lng : ℚ) (month : ℤ) (t : WeatherThresholds) (err : String),
        (Earth3DGlobe.analyzeWeatherRisk location_lat location_lng month t (.error err)).alternatives
          = []) := by
  constructor
  · intro lat lng tms today r0 r1 r2 r3 r4 r5
    have ha : dayNumber (tms + 86400000) = dayNumber tms + 1 := by
      have h := dayNumber_add_days tms 1
      norm_num at h
      exact h
    have hb : dayNumber (tms + 172800000) = dayNumber tms + 2 := by
      have h := dayNumber_add_days tms 2
      norm_num at h
      exact h
    refine ⟨?_, ?_⟩
    · simp [DataSourceIndicator.fallbackAnalysis, ha, hb]
    · simp [DataSourceIndicator.fallbackAnalysis, ha, hb]
  · intro llat llng month t err
    rfl

/-- C7 counterexample: a request carrying a 2-point polygon is not rejected
— the request body is built with the polygon silently replaced by
`undefined`, identically to supplying no polygon at all, and the analysis
flow still produces a (fallback) result rather than an `InvalidRequest`
error. -/
theorem C7_short_polygon_dropped_cx :
    (Map2D.buildAnalyzeRequest 0 0 0 ⟨32, 0, 5, 15⟩ none 0 (some [(0,0), (1,1)])).polygon = none
    ∧ Map2D.buildAnalyzeRequest 0 0 0 ⟨32, 0, 5, 15⟩ none 0 (some [(0,0), (1,1)])
        = Map2D.buildAnalyzeRequest 0 0 0 ⟨32, 0, 5, 15⟩ none 0 none
    ∧ (Map2D.analyzeWeatherRisk 0 0 0 (.error "backend unavailable")).length = 3 :=
  ⟨rfl, rfl, rfl⟩

/-- C7 (amended): a polygon with fewer than 3 vertices is silently dropped:
the request body sent to the backend is exactly the one built with no
polygon, and no rejection occurs. -/
theorem C7_short_polygon_silently_dropped_amended
    (lat lng : ℚ) (tms : ℤ) (t : WeatherThresholds) (radiusKm : Option ℚ) (areaRadiusKm : ℚ)
    (ps : List (ℚ × ℚ)) (h : ps.length < 3) :
    Map2D.buildAnalyzeRequest lat lng tms t radiusKm areaRadiusKm (some ps)
      = Map2D.buildAnalyzeRequest lat lng tms t radiusKm areaRadiusKm none := by
  have hnp : ¬ 3 ≤ ps.length := by omega
  simp [Map2D.buildAnalyzeRequest, hnp]

/-- C7 witness: the amended statement at a concrete 2-point polygon. -/
theorem C7_short_polygon_silently_dropped_amended_witness :
    ([((0:ℚ), (0:ℚ)), (1, 1)].length < 3)
    ∧ Map2D.buildAnalyzeRequest 1 2 3 ⟨32, 0, 5, 15⟩ none 0 (some [((0:ℚ), (0:ℚ)), (1, 1)])
        = Map2D.buildAnalyzeRequest 1 2 3 ⟨32, 0, 5, 15⟩ none 0 none :=
  ⟨by norm_num,
    C7_short_polygon_silently_dropped_amended 1 2 3 ⟨32, 0, 5, 15⟩ none 0
      [((0:ℚ), (0:ℚ)), (1, 1)] (by norm_num)⟩

/-- C8: every thrown backend error (no backend configured, network failure,
non-OK status) is caught and replaced by the simulated fallback result in
all three components; the caller always receives an analysis result, never
the error. -/
theorem C8_errors_recovered_by_fallback :
    (∀ (location_lat location_lng : ℚ) (month : ℤ) (t : WeatherThresholds) (err : String),
      Earth3DGlobe.analyzeWeatherRisk location_lat location_lng month t (.error err)
        = { probabilities :=
              Earth3DGlobe.calculateWeatherProbabilitiesLocal location_lat location_lng month t
          , comfortIndex := 65
          , alternatives := []
          , datasets_used := ["Fallback simulation"]
          , note := some "Backend unavailable, using local simulation" })
    ∧ (∀ (lat lng : ℚ) (tms : ℤ) (today : String) (r0 r1 r2 r3 r4 r5 : ℚ) (err : String),
        DataSourceIndicator.handleAnalyze lat lng tms today r0 r1 r2 r3 r4 r5 (.error err)
          = DataSourceIndicator.fallbackAnalysis lat lng tms today r0 r1 r2 r3 r4 r5)
    ∧ (∀ (s1 s2 s3 : ℚ) (err : String),
        (Map2D.analyzeWeatherRisk s1 s2 s3 (.error err)).length = 3) :=
  ⟨fun _ _ _ _ _ => rfl, fun _ _ _ _ _ _ _ _ _ _ _ => rfl, fun _ _ _ _ => rfl⟩

/-- C9: the probabilities of the Earth3DGlobe local fallback calculation do
not increase when each threshold is made stricter in its adverse direction
(hot, precipitation and wind raised, cold lowered) — the computation never
reads the numeric thresholds, so every per-variable probability is
unchanged, hence never increased. -/
theorem C9_probability_threshold_monotone
    (location_lat location_lng : ℚ) (month : ℤ) (t : WeatherThresholds)
    (hot cold prec wind : ℚ)
    (hhot : t.hotTemp ≤ hot) (hcold : cold ≤ t.coldTemp)
    (hprec : t.precipitation ≤ prec) (hwind : t.windSpeed ≤ wind) :
    ∀ i : ℕ,
      nthProbability (Earth3DGlobe.calculateWeatherProbabilitiesLocal location_lat location_lng month
        { hotTemp := hot, coldTemp := cold, precipitation := prec, windSpeed := wind }) i
      ≤ nthProbability
          (Earth3DGlobe.calculateWeatherProbabilitiesLocal location_lat location_lng month t) i := by
  intro i
  apply le_of_eq
  rcases i with _ | _ | _ | _ | i <;>
    simp [nthProbability, Earth3DGlobe.calculateWeatherProbabilitiesLocal, List.getD]

/-- C9 witness: the monotonicity statement at Delhi-like coordinates in
July with every threshold tightened. -/
theorem C9_probability_threshold_monotone_witness :
    ((32:ℚ) ≤ 35 ∧ (-5:ℚ) ≤ 0 ∧ (5:ℚ) ≤ 10 ∧ (15:ℚ) ≤ 20)
    ∧ nthProbability (Earth3DGlobe.calculateWeatherProbabilitiesLocal (2861/100) (7721/100) 6
        { hotTemp := 35, coldTemp := -5, precipitation := 10, windSpeed := 20 }) 0
      ≤ nthProbability (Earth3DGlobe.calculateWeatherProbabilitiesLocal (2861/100) (7721/100) 6
        { hotTemp := 32, coldTemp := 0, precipitation := 5, windSpeed := 15 }) 0 :=
  ⟨by norm_num,
    C9_probability_threshold_monotone (2861/100) (7721/100) 6
      { hotTemp := 32, coldTemp := 0, precipitation := 5, windSpeed := 15 }
      35 (-5) 10 20 (by norm_num) (by norm_num) (by norm_num) (by norm_num) 0⟩
